import Mathlib

/-!
Shallow embedding of the LifeLink workflow engine: the Donation and Request
documents (src/models/Donation.js, src/models/Request.js), the status-update
handlers (src/routes/donations.js, src/routes/requests.js PATCH /:id), the
hospital visibility queries (GET /), donation creation with the statistics
side effect (POST /), and the registration/login slice of the auth routes.
Identifiers and times are modelled as naturals; mongoose documents become
records; fallible handlers return Except.
-/

namespace LifeLink

/-- User identities (ObjectId) modelled as naturals. -/
abbrev UId := Nat

/-- Timestamps (Date) modelled as naturals. -/
abbrev Time := Nat

/-- The four user types of userSchema (src/models/User.js). -/
inductive Role
  | donor
  | patient
  | hospital
  | admin
deriving DecidableEq, Repr

/-- The slice of req.user that the routes read: _id, type, and the display
name (profile.name or the legacy data fallback, collapsed to one field). -/
structure AuthUser where
  uid : UId
  role : Role
  name : String
deriving DecidableEq, Repr

/-- Statuses appearing anywhere in the two schemas and routes.  The union of
the donation enum, the request enum and the value set by the donor cancel
branch. -/
inductive Status
  | pending
  | approved
  | rejected
  | completed
  | expired
  | cancelled
deriving DecidableEq, Repr

/-- donationSchema status enum: pending, approved, rejected, completed,
expired (src/models/Donation.js).  Note it does not contain cancelled. -/
def donationStatusEnum : List Status :=
  [.pending, .approved, .rejected, .completed, .expired]

/-- requestSchema status enum: pending, approved, rejected, completed,
cancelled (src/models/Request.js). -/
def requestStatusEnum : List Status :=
  [.pending, .approved, .rejected, .completed, .cancelled]

/-- One element of the rejectedByHospitals array of both schemas. -/
structure Rejection where
  hospitalId : UId
  hospitalName : String
  rejectionReason : String
  rejectedAt : Time
deriving DecidableEq, Repr

/-- The Donation document fields the routes act on (src/models/Donation.js). -/
structure Donation where
  donorId : UId
  donorName : String
  status : Status
  hospitalId : Option UId
  hospitalName : Option String
  patientId : Option UId
  approvedBy : Option UId
  rejectedByHospitals : List Rejection
  createdAt : Time
  updatedAt : Time
  approvedAt : Option Time
  completedAt : Option Time
deriving DecidableEq, Repr

/-- The Request document fields the routes act on (src/models/Request.js). -/
structure Request where
  patientId : UId
  patientName : String
  status : Status
  hospitalId : Option UId
  hospitalName : Option String
  approvedBy : Option UId
  rejectedByHospitals : List Rejection
  createdAt : Time
  updatedAt : Time
  approvedAt : Option Time
  completedAt : Option Time
deriving DecidableEq, Repr

/-- The donationSchema pre-save hook: refresh updatedAt, and when the status
path is modified (mongoose marks a path modified only when the assigned value
differs from the loaded one, here origStatus), set approvedAt and completedAt
once.  From donationSchema.pre in src/models/Donation.js; requestSchema has
the identical hook. -/
def donationHooks (now : Time) (origStatus : Status) (d : Donation) : Donation :=
  let d1 := { d with updatedAt := now }
  let d2 :=
    if d1.status ≠ origStatus ∧ d1.status = .approved ∧ d1.approvedAt = none then
      { d1 with approvedAt := some now }
    else d1
  if d2.status ≠ origStatus ∧ d2.status = .completed ∧ d2.completedAt = none then
    { d2 with completedAt := some now }
  else d2

/-- Mongoose save for a donation: enum validation of the status path (the
only schema validation the workflow can violate), then the pre-save hook. -/
def donationSave (now : Time) (origStatus : Status) (d : Donation) :
    Except String Donation :=
  if d.status ∈ donationStatusEnum then
    .ok (donationHooks now origStatus d)
  else
    .error "Donation validation failed"

/-- The requestSchema pre-save hook (src/models/Request.js), identical in
behaviour to the donation hook. -/
def requestHooks (now : Time) (origStatus : Status) (r : Request) : Request :=
  let r1 := { r with updatedAt := now }
  let r2 :=
    if r1.status ≠ origStatus ∧ r1.status = .approved ∧ r1.approvedAt = none then
      { r1 with approvedAt := some now }
    else r1
  if r2.status ≠ origStatus ∧ r2.status = .completed ∧ r2.completedAt = none then
    { r2 with completedAt := some now }
  else r2

/-- Mongoose save for a request: status enum validation, then the hook. -/
def requestSave (now : Time) (origStatus : Status) (r : Request) :
    Except String Request :=
  if r.status ∈ requestStatusEnum then
    .ok (requestHooks now origStatus r)
  else
    .error "Request validation failed"

/-- The body of PATCH /donations/:id: status, optional rejectionReason,
optional patientId (src/routes/donations.js). -/
structure PatchBody where
  status : Status
  rejectionReason : Option String
  patientId : Option UId
deriving DecidableEq, Repr

/-- The unconditional patientId reassignment at the end of the donation
PATCH handler: if req.body.patientId is present it is written through. -/
def applyPatientId (body : PatchBody) (d : Donation) : Donation :=
  match body.patientId with
  | some p => { d with patientId := some p }
  | none => d

/-- PATCH /donations/:id (src/routes/donations.js, router.patch): the four
role branches, the hospital status validation, the approve / reject /
complete effects, the donor cancel branch, the admin pass-through, the
patientId write-through, and the final save. -/
def patchDonation (u : AuthUser) (body : PatchBody) (now : Time) (d : Donation) :
    Except String Donation :=
  match u.role with
  | .hospital =>
    if body.status ∈ [Status.approved, .rejected, .completed] then
      let d1 :=
        if body.status = .approved then
          { d with status := .approved, hospitalId := some u.uid,
                   hospitalName := some u.name, approvedBy := some u.uid }
        else if body.status = .rejected then
          if d.rejectedByHospitals.any (fun r => r.hospitalId == u.uid) then d
          else
            { d with rejectedByHospitals := d.rejectedByHospitals ++
                [{ hospitalId := u.uid, hospitalName := u.name,
                   rejectionReason := body.rejectionReason.getD "No reason provided",
                   rejectedAt := now }] }
        else
          { d with status := .completed }
      donationSave now d.status (applyPatientId body d1)
    else .error "Invalid status update"
  | .donor =>
    if d.donorId = u.uid ∧ body.status ∈ [Status.cancelled] then
      donationSave now d.status (applyPatientId body { d with status := body.status })
    else .error "Not authorized"
  | .admin => donationSave now d.status (applyPatientId body d)
  | .patient => .error "Not authorized"

/-- PATCH /requests/:id (src/routes/requests.js, router.patch): role gate to
hospital or admin, status validation, then the approved / rejected / other
(completed) branches and the save. -/
def patchRequest (u : AuthUser) (status : Status) (rejectionReason : Option String)
    (now : Time) (r : Request) : Except String Request :=
  if u.role ∈ [Role.hospital, .admin] then
    if status ∈ [Status.approved, .rejected, .completed] then
      let r1 :=
        if status = .approved then
          { r with status := .approved, hospitalId := some u.uid,
                   hospitalName := some u.name, approvedBy := some u.uid }
        else if status = .rejected then
          if r.rejectedByHospitals.any (fun x => x.hospitalId == u.uid) then r
          else
            { r with rejectedByHospitals := r.rejectedByHospitals ++
                [{ hospitalId := u.uid, hospitalName := u.name,
                   rejectionReason := rejectionReason.getD "No reason provided",
                   rejectedAt := now }] }
        else
          { r with status := status, hospitalId := some u.uid,
                   hospitalName := some u.name, approvedBy := some u.uid }
      requestSave now r.status r1
    else .error "Invalid status. Must be approved, rejected, or completed"
  else .error "Only hospitals and admins can update request status"

/-- The hospital branch of the GET /donations query (src/routes/donations.js):
the four-way $or.  A $ne condition on an array path holds when no array
element matches; a plain equality on an array path holds when some element
matches. -/
def hospitalSeesDonation (h : UId) (d : Donation) : Bool :=
  (d.status == .pending && d.rejectedByHospitals.all (fun r => r.hospitalId != h))
    || (d.status == .approved && d.hospitalId == some h)
    || (d.status == .rejected && d.hospitalId == some h)
    || d.rejectedByHospitals.any (fun r => r.hospitalId == h)

/-- GET /donations for a hospital caller: the ledger filtered by the $or
query. -/
def listDonationsForHospital (h : UId) (ds : List Donation) : List Donation :=
  ds.filter (hospitalSeesDonation h)

/-- The hospital branch of the GET /requests query (src/routes/requests.js),
identical in shape to the donation query.  The route additionally sorts the
result by createdAt descending, which does not affect membership. -/
def hospitalSeesRequest (h : UId) (r : Request) : Bool :=
  (r.status == .pending && r.rejectedByHospitals.all (fun x => x.hospitalId != h))
    || (r.status == .approved && r.hospitalId == some h)
    || (r.status == .rejected && r.hospitalId == some h)
    || r.rejectedByHospitals.any (fun x => x.hospitalId == h)

/-- GET /requests for a hospital caller, up to the final sort. -/
def listRequestsForHospital (h : UId) (rs : List Request) : List Request :=
  rs.filter (hospitalSeesRequest h)

/-- The spec wording of the hospital visibility rule for an entry with
status s, rejection list rej and assignment hosp: union of (a) pending and
not rejected by this hospital, (b) approved or rejected and assigned to this
hospital, (c) rejected by this hospital regardless of status. -/
def hospitalVisibleSpec (h : UId) (s : Status) (hosp : Option UId)
    (rej : List Rejection) : Prop :=
  (s = .pending ∧ ∀ r ∈ rej, r.hospitalId ≠ h)
    ∨ ((s = .approved ∨ s = .rejected) ∧ hosp = some h)
    ∨ (∃ r ∈ rej, r.hospitalId = h)

/-- The Stats document (src/models/Stats.js). -/
structure Stats where
  totalUsers : Nat
  totalDonors : Nat
  totalHospitals : Nat
  totalPatients : Nat
  totalDonations : Nat
  lastUpdated : Time
deriving DecidableEq, Repr

/-- The persistent state touched by POST /donations: the donation ledger and
the single Stats document (possibly absent). -/
structure DonationState where
  donations : List Donation
  stats : Option Stats
deriving DecidableEq, Repr

/-- The fresh document built by POST /donations before saving: pending, no
assignment, empty rejections, both timestamps at creation time
(src/routes/donations.js router.post). -/
def newDonation (u : AuthUser) (now : Time) : Donation :=
  { donorId := u.uid, donorName := u.name, status := .pending,
    hospitalId := none, hospitalName := none, patientId := none,
    approvedBy := none, rejectedByHospitals := [], createdAt := now,
    updatedAt := now, approvedAt := none, completedAt := none }

/-- POST /donations (src/routes/donations.js router.post): donor-only gate,
save the new donation, then read the Stats singleton and increment
totalDonations.  When no Stats document exists, stats.totalDonations += 1
raises a TypeError which the catch block turns into a 400 response, after
the donation has already been saved: the ledger write is not rolled back. -/
def createDonation (u : AuthUser) (now : Time) (st : DonationState) :
    DonationState × Except String Donation :=
  if u.role = .donor then
    let d := newDonation u now
    let st1 : DonationState := { st with donations := st.donations ++ [d] }
    match st.stats with
    | some s =>
        ({ st1 with stats := some { s with totalDonations := s.totalDonations + 1,
                                           lastUpdated := now } },
         .ok d)
    | none => (st1, .error "Cannot read properties of null reading totalDonations")
  else (st, .error "Only donors can create donations")

/-- One reject operation folded into a state: a PATCH with status rejected;
on an error response the stored document is unchanged. -/
def rejectStepDonation (u : AuthUser) (reason : Option String) (now : Time)
    (d : Donation) : Donation :=
  match patchDonation u { status := .rejected, rejectionReason := reason,
                          patientId := none } now d with
  | .ok d2 => d2
  | .error _ => d

/-- A sequence of reject operations on one donation. -/
def runRejectsDonation (steps : List (AuthUser × Option String × Time))
    (d : Donation) : Donation :=
  steps.foldl (fun d s => rejectStepDonation s.1 s.2.1 s.2.2 d) d

/-- One reject operation folded into a request. -/
def rejectStepRequest (u : AuthUser) (reason : Option String) (now : Time)
    (r : Request) : Request :=
  match patchRequest u .rejected reason now r with
  | .ok r2 => r2
  | .error _ => r

/-- A sequence of reject operations on one request. -/
def runRejectsRequest (steps : List (AuthUser × Option String × Time))
    (r : Request) : Request :=
  steps.foldl (fun r s => rejectStepRequest s.1 s.2.1 s.2.2 r) r

/-- One arbitrary PATCH /requests/:id operation folded into a request; on an
error response the stored document is unchanged. -/
def patchStepRequest (u : AuthUser) (status : Status) (reason : Option String)
    (now : Time) (r : Request) : Request :=
  match patchRequest u status reason now r with
  | .ok r2 => r2
  | .error _ => r

/-- A sequence of arbitrary PATCH operations on one request. -/
def runPatchesRequest (steps : List (AuthUser × Status × Option String × Time))
    (r : Request) : Request :=
  steps.foldl (fun r s => patchStepRequest s.1 s.2.1 s.2.2.1 s.2.2.2 r) r

/-- The hospital identities present in the rejections array of a donation. -/
def donationRejectionIds (d : Donation) : List UId :=
  d.rejectedByHospitals.map Rejection.hospitalId

/-- The hospital identities present in the rejections array of a request. -/
def requestRejectionIds (r : Request) : List UId :=
  r.rejectedByHospitals.map Rejection.hospitalId

/-- A stored credential: either still the raw submitted string or the bcrypt
digest of it.  The pre-save hook of userSchema replaces a plain credential by
its hash; bcrypt.compare succeeds exactly on the original string. -/
inductive StoredPassword
  | plain (s : String)
  | hashed (s : String)
deriving DecidableEq, Repr

/-- bcrypt.hash applied by the userSchema pre-save hook
(src/models/User.js). -/
def bcryptHash (p : StoredPassword) : StoredPassword :=
  match p with
  | .plain s => .hashed s
  | .hashed s => .hashed s

/-- The User document slice touched by register and login: credentials, type,
profile name, the legacy data object (as key-value pairs), and the lockout
and activation fields login checks. -/
structure StoredUser where
  email : String
  password : StoredPassword
  type : Role
  profileName : String
  data : List (String × String)
  status : String
  accountLocked : Bool
  lockUntil : Option Time
deriving DecidableEq, Repr

/-- The key prefix for the legacy data fields of each user type. -/
def roleKey (ty : Role) : String :=
  match ty with
  | .patient => "patient"
  | .hospital => "hospital"
  | .donor => "donor"
  | .admin => "admin"

/-- The legacy data object built by POST /register for each user type: the
raw name, lowercased email, phone, the type-specific extras, and the raw
password under the key <type>-password. -/
def legacyData (ty : Role) (name email phone password : String)
    (address bloodGroup : Option String) : List (String × String) :=
  match ty with
  | .patient =>
      [("patient-name", name), ("patient-email", email),
       ("patient-phone", phone), ("patient-password", password)]
  | .hospital =>
      [("hospital-name", name), ("hospital-email", email),
       ("hospital-phone", phone), ("hospital-address", address.getD ""),
       ("hospital-password", password)]
  | .donor =>
      [("donor-name", name), ("donor-email", email),
       ("donor-phone", phone), ("donor-blood-group", bloodGroup.getD ""),
       ("donor-password", password)]
  | .admin =>
      [("admin-name", name), ("admin-email", email),
       ("admin-password", password)]

/-- The registration form fields read by POST /register. -/
structure RegInput where
  type : Role
  name : String
  email : String
  phone : String
  password : String
  address : Option String
  bloodGroup : Option String
deriving DecidableEq, Repr

/-- The blood group enum checked at registration. -/
def bloodGroups : List String :=
  ["A+", "A-", "B+", "B-", "AB+", "AB-", "O+", "O-"]

/-- User.save: the pre-save hook hashes a freshly assigned password
(src/models/User.js userSchema.pre save). -/
def saveUser (u : StoredUser) : StoredUser :=
  { u with password := bcryptHash u.password }

/-- POST /register (src/unnamed/part_002 router.post register): duplicate
email check, required fields, the email regex (externalized here as the
emailFormatOk predicate), the phone and password checks, type-specific
checks, then the user document built with the raw password both at top level
and inside the legacy data object, saved (hashing the top-level password
only), and echoed back: the response carries user.data verbatim.  The
returned pair is the persisted user and the data object of the 201 response
body. -/
def registerUser (emailFormatOk : String → Bool) (existing : List StoredUser)
    (inp : RegInput) : Except String (StoredUser × List (String × String)) :=
  if existing.any (fun u => u.email == inp.email.toLower) then
    .error "Account already exists with this email address"
  else if inp.name = "" ∨ inp.email = "" ∨ inp.password = "" ∨ inp.phone = "" then
    .error "Missing required fields"
  else if ¬ emailFormatOk inp.email then
    .error "Please enter a valid email address"
  else if ¬ (inp.phone.length = 10 ∧ inp.phone.toList.all Char.isDigit) then
    .error "Phone number must be exactly 10 digits"
  else if inp.password.length < 8 then
    .error "Password must be at least 8 characters long"
  else if inp.type = .hospital ∧ inp.address = none then
    .error "Address is required for hospital registration"
  else if inp.type = .donor ∧ inp.bloodGroup = none then
    .error "Blood group is required for donor registration"
  else if inp.type = .donor ∧ inp.bloodGroup.getD "" ∉ bloodGroups then
    .error "Invalid blood group"
  else
    let user0 : StoredUser :=
      { email := inp.email.toLower, password := .plain inp.password,
        type := inp.type, profileName := inp.name.trim,
        data := legacyData inp.type inp.name inp.email.toLower inp.phone
                  inp.password inp.address inp.bloodGroup,
        status := "active", accountLocked := false, lockUntil := none }
    let user := saveUser user0
    .ok (user, user.data)

/-- bcrypt.compare as used by userSchema.methods.comparePassword: a
candidate matches a hashed credential exactly when it is the original
string. -/
def comparePassword (u : StoredUser) (candidate : String) : Bool :=
  match u.password with
  | .hashed s => candidate == s
  | .plain _ => false

/-- userSchema.methods.isLocked. -/
def isLocked (u : StoredUser) (now : Time) : Bool :=
  u.accountLocked &&
    (match u.lockUntil with
     | some t => now < t
     | none => false)

/-- POST /login (src/unnamed/part_002 router.post login), reduced to the
data it returns: find the user by lowercased email and type, refuse locked
or deactivated accounts and wrong passwords, and otherwise answer with the
user object, whose data field is included verbatim in the response body. -/
def loginUser (users : List StoredUser) (email password : String) (ty : Role)
    (now : Time) : Except String (List (String × String)) :=
  match users.find? (fun u => u.email == email.toLower && u.type == ty) with
  | none => .error "Invalid login credentials"
  | some u =>
    if isLocked u now then
      .error "Account is temporarily locked"
    else if u.status == "deactivated" then
      .error "Account has been deactivated"
    else if ¬ comparePassword u password then
      .error "Invalid login credentials"
    else
      .ok u.data

/-! ## Basic lemmas about the save hooks and the patch branches -/

theorem donationHooks_unmodified (now : Time) (orig : Status) (d : Donation)
    (h : d.status = orig) :
    donationHooks now orig d = { d with updatedAt := now } := by
  unfold donationHooks
  simp [h]

theorem donationHooks_self (now : Time) (d : Donation) :
    donationHooks now d.status d = { d with updatedAt := now } :=
  donationHooks_unmodified now d.status d rfl

theorem requestHooks_unmodified (now : Time) (orig : Status) (r : Request)
    (h : r.status = orig) :
    requestHooks now orig r = { r with updatedAt := now } := by
  unfold requestHooks
  simp [h]

theorem requestHooks_self (now : Time) (r : Request) :
    requestHooks now r.status r = { r with updatedAt := now } :=
  requestHooks_unmodified now r.status r rfl

theorem donationSave_self (now : Time) (d : Donation)
    (h : d.status ∈ donationStatusEnum) :
    donationSave now d.status d = .ok { d with updatedAt := now } := by
  unfold donationSave
  rw [if_pos h, donationHooks_self]

theorem requestSave_self (now : Time) (r : Request)
    (h : r.status ∈ requestStatusEnum) :
    requestSave now r.status r = .ok { r with updatedAt := now } := by
  unfold requestSave
  rw [if_pos h, requestHooks_self]

theorem patchDonation_rejected_eq (u : AuthUser) (body : PatchBody) (now : Time)
    (d : Donation) (hrole : u.role = .hospital) (hst : body.status = .rejected) :
    patchDonation u body now d =
      donationSave now d.status (applyPatientId body
        (if d.rejectedByHospitals.any (fun r => r.hospitalId == u.uid) then d
         else
           { d with rejectedByHospitals := d.rejectedByHospitals ++
               [{ hospitalId := u.uid, hospitalName := u.name,
                  rejectionReason := body.rejectionReason.getD "No reason provided",
                  rejectedAt := now }] })) := by
  unfold patchDonation
  rw [hrole, hst]
  simp

theorem patchRequest_rejected_eq (u : AuthUser) (reason : Option String)
    (now : Time) (r : Request) (hrole : u.role = .hospital ∨ u.role = .admin) :
    patchRequest u .rejected reason now r =
      requestSave now r.status
        (if r.rejectedByHospitals.any (fun x => x.hospitalId == u.uid) then r
         else
           { r with rejectedByHospitals := r.rejectedByHospitals ++
               [{ hospitalId := u.uid, hospitalName := u.name,
                  rejectionReason := reason.getD "No reason provided",
                  rejectedAt := now }] }) := by
  unfold patchRequest
  rcases hrole with h | h <;> rw [h] <;> simp

theorem donationHooks_shape (now : Time) (orig : Status) (d : Donation) :
    ∃ a c, donationHooks now orig d =
      { d with updatedAt := now, approvedAt := a, completedAt := c } := by
  unfold donationHooks
  dsimp only
  split <;> split <;> exact ⟨_, _, rfl⟩

theorem requestHooks_shape (now : Time) (orig : Status) (r : Request) :
    ∃ a c, requestHooks now orig r =
      { r with updatedAt := now, approvedAt := a, completedAt := c } := by
  unfold requestHooks
  dsimp only
  split <;> split <;> exact ⟨_, _, rfl⟩

theorem donationSave_ok_shape (now : Time) (orig : Status) (d d2 : Donation)
    (h : donationSave now orig d = .ok d2) :
    ∃ a c, d2 = { d with updatedAt := now, approvedAt := a, completedAt := c } := by
  unfold donationSave at h
  split at h
  · obtain ⟨a, c, hac⟩ := donationHooks_shape now orig d
    exact ⟨a, c, by injection h with h2; rw [← h2, hac]⟩
  · cases h

theorem requestSave_ok_shape (now : Time) (orig : Status) (r r2 : Request)
    (h : requestSave now orig r = .ok r2) :
    ∃ a c, r2 = { r with updatedAt := now, approvedAt := a, completedAt := c } := by
  unfold requestSave at h
  split at h
  · obtain ⟨a, c, hac⟩ := requestHooks_shape now orig r
    exact ⟨a, c, by injection h with h2; rw [← h2, hac]⟩
  · cases h

theorem applyPatientId_status (body : PatchBody) (d : Donation) :
    (applyPatientId body d).status = d.status := by
  unfold applyPatientId
  split <;> rfl

theorem applyPatientId_hospitalId (body : PatchBody) (d : Donation) :
    (applyPatientId body d).hospitalId = d.hospitalId := by
  unfold applyPatientId
  split <;> rfl

theorem applyPatientId_hospitalName (body : PatchBody) (d : Donation) :
    (applyPatientId body d).hospitalName = d.hospitalName := by
  unfold applyPatientId
  split <;> rfl

theorem applyPatientId_approvedBy (body : PatchBody) (d : Donation) :
    (applyPatientId body d).approvedBy = d.approvedBy := by
  unfold applyPatientId
  split <;> rfl

theorem applyPatientId_rejections (body : PatchBody) (d : Donation) :
    (applyPatientId body d).rejectedByHospitals = d.rejectedByHospitals := by
  unfold applyPatientId
  split <;> rfl

theorem applyPatientId_approvedAt (body : PatchBody) (d : Donation) :
    (applyPatientId body d).approvedAt = d.approvedAt := by
  unfold applyPatientId
  split <;> rfl

theorem applyPatientId_completedAt (body : PatchBody) (d : Donation) :
    (applyPatientId body d).completedAt = d.completedAt := by
  unfold applyPatientId
  split <;> rfl

/-! ## Concrete fixtures used by witnesses and counterexamples -/

/-- A hospital caller. -/
def hosp1 : AuthUser := ⟨1, .hospital, "City Hospital"⟩

/-- A second hospital caller. -/
def hosp2 : AuthUser := ⟨2, .hospital, "General Hospital"⟩

/-- An admin caller. -/
def adminUser : AuthUser := ⟨9, .admin, "Admin"⟩

/-- A donor caller. -/
def donor1 : AuthUser := ⟨10, .donor, "Dan Donor"⟩

/-- A freshly created pending donation owned by donor1. -/
def baseDonation : Donation :=
  { donorId := 10, donorName := "Dan Donor", status := .pending,
    hospitalId := none, hospitalName := none, patientId := none,
    approvedBy := none, rejectedByHospitals := [], createdAt := 0,
    updatedAt := 0, approvedAt := none, completedAt := none }

/-- A freshly created pending request. -/
def baseRequest : Request :=
  { patientId := 20, patientName := "Pat", status := .pending,
    hospitalId := none, hospitalName := none, approvedBy := none,
    rejectedByHospitals := [], createdAt := 0, updatedAt := 0,
    approvedAt := none, completedAt := none }

/-! ## Claim C2 -/

/-- Claim C2: a rejection by a hospital leaves the global status unchanged
(in particular a pending entry stays pending) and never touches hospitalId,
hospitalName, approvedBy, approvedAt or completedAt, for donations and for
requests alike: the reject branch mutates only the rejections array and
updatedAt. -/
theorem reject_preserves_status_and_assignment :
    (∀ (u : AuthUser) (body : PatchBody) (now : Time) (d d2 : Donation),
        u.role = .hospital → body.status = .rejected →
        patchDonation u body now d = .ok d2 →
        d2.status = d.status ∧ d2.hospitalId = d.hospitalId ∧
        d2.hospitalName = d.hospitalName ∧ d2.approvedBy = d.approvedBy ∧
        d2.approvedAt = d.approvedAt ∧ d2.completedAt = d.completedAt) ∧
    (∀ (u : AuthUser) (reason : Option String) (now : Time) (r r2 : Request),
        (u.role = .hospital ∨ u.role = .admin) →
        patchRequest u .rejected reason now r = .ok r2 →
        r2.status = r.status ∧ r2.hospitalId = r.hospitalId ∧
        r2.hospitalName = r.hospitalName ∧ r2.approvedBy = r.approvedBy ∧
        r2.approvedAt = r.approvedAt ∧ r2.completedAt = r.completedAt) := by
  constructor
  · intro u body now d d2 hrole hst hp
    rw [patchDonation_rejected_eq u body now d hrole hst] at hp
    split at hp
    all_goals
      unfold donationSave at hp
      split at hp
      case isTrue =>
        rw [donationHooks_unmodified _ _ _ (by rw [applyPatientId_status])] at hp
        injection hp with hp
        rw [← hp]
        refine ⟨?_, ?_, ?_, ?_, ?_, ?_⟩ <;>
          simp only [applyPatientId_status, applyPatientId_hospitalId,
            applyPatientId_hospitalName, applyPatientId_approvedBy,
            applyPatientId_approvedAt, applyPatientId_completedAt]
      case isFalse => cases hp
  · intro u reason now r r2 hrole hp
    rw [patchRequest_rejected_eq u reason now r hrole] at hp
    split at hp
    all_goals
      unfold requestSave at hp
      split at hp
      case isTrue =>
        rw [requestHooks_unmodified _ _ _ (by rfl)] at hp
        injection hp with hp
        rw [← hp]
        exact ⟨rfl, rfl, rfl, rfl, rfl, rfl⟩
      case isFalse => cases hp

/-- The expected result of the first rejection in the C2 witness. -/
def rejectedOnceDonation : Donation :=
  { baseDonation with
      updatedAt := 3
      rejectedByHospitals := [⟨1, "City Hospital", "no stock", 3⟩] }

/-- Witness for C2: hospital 1 rejects the fresh pending donation; the result
keeps status pending and only gains a rejection entry and a new updatedAt. -/
theorem reject_preserves_status_and_assignment_witness :
    patchDonation hosp1 ⟨.rejected, some "no stock", none⟩ 3 baseDonation =
      .ok rejectedOnceDonation ∧
    rejectedOnceDonation.status = baseDonation.status := by
  have hcomp : patchDonation hosp1 ⟨.rejected, some "no stock", none⟩ 3 baseDonation =
      .ok rejectedOnceDonation := by rfl
  exact ⟨hcomp,
    (reject_preserves_status_and_assignment.1 hosp1 _ 3 baseDonation _ rfl rfl hcomp).1⟩

/-! ## Claim C1 -/

theorem runRejectsDonation_cons (s : AuthUser × Option String × Time)
    (rest : List (AuthUser × Option String × Time)) (d : Donation) :
    runRejectsDonation (s :: rest) d =
      runRejectsDonation rest (rejectStepDonation s.1 s.2.1 s.2.2 d) := rfl

theorem runRejectsRequest_cons (s : AuthUser × Option String × Time)
    (rest : List (AuthUser × Option String × Time)) (r : Request) :
    runRejectsRequest (s :: rest) r =
      runRejectsRequest rest (rejectStepRequest s.1 s.2.1 s.2.2 r) := rfl

theorem rejectStepDonation_ids (u : AuthUser) (reason : Option String)
    (now : Time) (d : Donation) :
    donationRejectionIds (rejectStepDonation u reason now d) = donationRejectionIds d ∨
      (u.uid ∉ donationRejectionIds d ∧
        donationRejectionIds (rejectStepDonation u reason now d) =
          donationRejectionIds d ++ [u.uid]) := by
  unfold rejectStepDonation
  cases hrole : u.role
  case donor =>
    unfold patchDonation
    rw [hrole]
    simp
  case patient =>
    unfold patchDonation
    rw [hrole]
    simp
  case admin =>
    left
    unfold patchDonation
    rw [hrole]
    dsimp only [applyPatientId]
    unfold donationSave
    by_cases henum : d.status ∈ donationStatusEnum
    · rw [if_pos henum, donationHooks_self]
      rfl
    · rw [if_neg henum]
  case hospital =>
    rw [patchDonation_rejected_eq u ⟨.rejected, reason, none⟩ now d hrole rfl]
    dsimp only [applyPatientId]
    by_cases hany : (d.rejectedByHospitals.any fun x => x.hospitalId == u.uid) = true
    · left
      rw [if_pos hany]
      unfold donationSave
      by_cases henum : d.status ∈ donationStatusEnum
      · rw [if_pos henum, donationHooks_self]
        rfl
      · rw [if_neg henum]
    · rw [if_neg hany]
      unfold donationSave
      dsimp only
      by_cases henum : d.status ∈ donationStatusEnum
      · right
        constructor
        · intro hmemid
          apply hany
          rw [List.any_eq_true]
          obtain ⟨rj, hrj, hid⟩ := List.mem_map.mp hmemid
          exact ⟨rj, hrj, by simp [hid]⟩
        · rw [if_pos henum, donationHooks_unmodified _ _ _ (by rfl)]
          simp [donationRejectionIds]
      · left
        rw [if_neg henum]

theorem rejectStepRequest_ids (u : AuthUser) (reason : Option String)
    (now : Time) (r : Request) :
    requestRejectionIds (rejectStepRequest u reason now r) = requestRejectionIds r ∨
      (u.uid ∉ requestRejectionIds r ∧
        requestRejectionIds (rejectStepRequest u reason now r) =
          requestRejectionIds r ++ [u.uid]) := by
  unfold rejectStepRequest
  by_cases hrole : u.role = .hospital ∨ u.role = .admin
  · rw [patchRequest_rejected_eq u reason now r hrole]
    by_cases hany : (r.rejectedByHospitals.any fun x => x.hospitalId == u.uid) = true
    · left
      rw [if_pos hany]
      unfold requestSave
      by_cases henum : r.status ∈ requestStatusEnum
      · rw [if_pos henum, requestHooks_self]
        rfl
      · rw [if_neg henum]
    · rw [if_neg hany]
      unfold requestSave
      dsimp only
      by_cases henum : r.status ∈ requestStatusEnum
      · right
        constructor
        · intro hmemid
          apply hany
          rw [List.any_eq_true]
          obtain ⟨rj, hrj, hid⟩ := List.mem_map.mp hmemid
          exact ⟨rj, hrj, by simp [hid]⟩
        · rw [if_pos henum, requestHooks_unmodified _ _ _ (by rfl)]
          simp [requestRejectionIds]
      · left
        rw [if_neg henum]
  · left
    unfold patchRequest
    have : u.role ∉ [Role.hospital, .admin] := by
      intro hmem
      apply hrole
      simpa using hmem
    rw [if_neg this]

/-- Claim C1: the rejections array contains at most one entry per hospital
identity.  Starting from any entry whose rejection hospital ids are free of
duplicates (in particular a fresh entry), any sequence of reject operations
keeps them free of duplicates; and a reject by a hospital already present
succeeds silently, returning the entry unchanged apart from updatedAt. -/
theorem rejections_at_most_one_per_hospital :
    (∀ (steps : List (AuthUser × Option String × Time)) (d : Donation),
        (donationRejectionIds d).Nodup →
        (donationRejectionIds (runRejectsDonation steps d)).Nodup) ∧
    (∀ (steps : List (AuthUser × Option String × Time)) (r : Request),
        (requestRejectionIds r).Nodup →
        (requestRejectionIds (runRejectsRequest steps r)).Nodup) ∧
    (∀ (u : AuthUser) (reason : Option String) (now : Time) (d : Donation),
        u.role = .hospital → u.uid ∈ donationRejectionIds d →
        d.status ∈ donationStatusEnum →
        patchDonation u ⟨.rejected, reason, none⟩ now d =
          .ok { d with updatedAt := now }) ∧
    (∀ (u : AuthUser) (reason : Option String) (now : Time) (r : Request),
        (u.role = .hospital ∨ u.role = .admin) → u.uid ∈ requestRejectionIds r →
        r.status ∈ requestStatusEnum →
        patchRequest u .rejected reason now r = .ok { r with updatedAt := now }) := by
  refine ⟨?_, ?_, ?_, ?_⟩
  · intro steps
    induction steps with
    | nil => intro d h; exact h
    | cons s rest ih =>
      intro d h
      rw [runRejectsDonation_cons]
      apply ih
      rcases rejectStepDonation_ids s.1 s.2.1 s.2.2 d with he | ⟨hnm, he⟩
      · rw [he]; exact h
      · rw [he]
        simp [List.nodup_append, h, hnm]
  · intro steps
    induction steps with
    | nil => intro r h; exact h
    | cons s rest ih =>
      intro r h
      rw [runRejectsRequest_cons]
      apply ih
      rcases rejectStepRequest_ids s.1 s.2.1 s.2.2 r with he | ⟨hnm, he⟩
      · rw [he]; exact h
      · rw [he]
        simp [List.nodup_append, h, hnm]
  · intro u reason now d hrole hmem henum
    rw [patchDonation_rejected_eq u ⟨.rejected, reason, none⟩ now d hrole rfl]
    have hany : (d.rejectedByHospitals.any fun x => x.hospitalId == u.uid) = true := by
      rw [List.any_eq_true]
      obtain ⟨rj, hrj, hid⟩ := List.mem_map.mp hmem
      exact ⟨rj, hrj, by simp [hid]⟩
    rw [if_pos hany]
    dsimp only [applyPatientId]
    exact donationSave_self now d henum
  · intro u reason now r hrole hmem henum
    rw [patchRequest_rejected_eq u reason now r hrole]
    have hany : (r.rejectedByHospitals.any fun x => x.hospitalId == u.uid) = true := by
      rw [List.any_eq_true]
      obtain ⟨rj, hrj, hid⟩ := List.mem_map.mp hmem
      exact ⟨rj, hrj, by simp [hid]⟩
    rw [if_pos hany]
    exact requestSave_self now r henum

/-- A pending donation already rejected once by hospital 1. -/
def rejectedDonation : Donation :=
  { baseDonation with rejectedByHospitals := [⟨1, "City Hospital", "no stock", 2⟩] }

/-- Witness for C1: a repeat rejection by hospital 1 is a silent no-op apart
from updatedAt, and a concrete reject sequence with a repeat leaves the
rejection ids duplicate-free. -/
theorem rejections_at_most_one_per_hospital_witness :
    patchDonation hosp1 ⟨.rejected, none, none⟩ 4 rejectedDonation =
      .ok { rejectedDonation with updatedAt := 4 } ∧
    (donationRejectionIds (runRejectsDonation
      [(hosp1, none, 3), (hosp2, none, 4), (hosp1, none, 5)] baseDonation)).Nodup := by
  constructor
  · exact rejections_at_most_one_per_hospital.2.2.1 hosp1 none 4 rejectedDonation rfl
      (by decide) (by decide)
  · exact rejections_at_most_one_per_hospital.1
      [(hosp1, none, 3), (hosp2, none, 4), (hosp1, none, 5)] baseDonation (by decide)

/-! ## Claim C7 -/

/-- Claim C7: the hospital branch of the list query returns exactly the union
described by the spec — pending entries the hospital has not rejected,
approved or rejected entries assigned to it, and every entry it has rejected
regardless of status — for donations and for requests; consequently an entry
a hospital has rejected stays in that hospital's list whatever its status
becomes. -/
theorem hospital_list_is_spec_union :
    (∀ (h : UId) (ds : List Donation) (d : Donation),
        d ∈ listDonationsForHospital h ds ↔
          d ∈ ds ∧ hospitalVisibleSpec h d.status d.hospitalId d.rejectedByHospitals) ∧
    (∀ (h : UId) (rs : List Request) (r : Request),
        r ∈ listRequestsForHospital h rs ↔
          r ∈ rs ∧ hospitalVisibleSpec h r.status r.hospitalId r.rejectedByHospitals) ∧
    (∀ (h : UId) (ds : List Donation) (d : Donation),
        d ∈ ds → (∃ rj ∈ d.rejectedByHospitals, rj.hospitalId = h) →
        d ∈ listDonationsForHospital h ds) ∧
    (∀ (h : UId) (rs : List Request) (r : Request),
        r ∈ rs → (∃ rj ∈ r.rejectedByHospitals, rj.hospitalId = h) →
        r ∈ listRequestsForHospital h rs) := by
  have hd : ∀ (h : UId) (d : Donation),
      hospitalSeesDonation h d = true ↔
        hospitalVisibleSpec h d.status d.hospitalId d.rejectedByHospitals := by
    intro h d
    unfold hospitalSeesDonation hospitalVisibleSpec
    simp [List.any_eq_true, List.all_eq_true]
    tauto
  have hr : ∀ (h : UId) (r : Request),
      hospitalSeesRequest h r = true ↔
        hospitalVisibleSpec h r.status r.hospitalId r.rejectedByHospitals := by
    intro h r
    unfold hospitalSeesRequest hospitalVisibleSpec
    simp [List.any_eq_true, List.all_eq_true]
    tauto
  refine ⟨?_, ?_, ?_, ?_⟩
  · intro h ds d
    unfold listDonationsForHospital
    rw [List.mem_filter, hd]
  · intro h rs r
    unfold listRequestsForHospital
    rw [List.mem_filter, hr]
  · intro h ds d hmem hrej
    unfold listDonationsForHospital
    rw [List.mem_filter, hd]
    exact ⟨hmem, Or.inr (Or.inr hrej)⟩
  · intro h rs r hmem hrej
    unfold listRequestsForHospital
    rw [List.mem_filter, hr]
    exact ⟨hmem, Or.inr (Or.inr hrej)⟩

/-- A completed donation that hospital 1 had rejected earlier: used to show
rule (c) keeps it visible to hospital 1. -/
def completedRejectedDonation : Donation :=
  { baseDonation with
      status := .completed
      rejectedByHospitals := [⟨1, "City Hospital", "no stock", 2⟩] }

/-- Witness for C7: a completed donation that hospital 1 once rejected is
still in hospital 1's list. -/
theorem hospital_list_is_spec_union_witness :
    completedRejectedDonation ∈ listDonationsForHospital 1 [completedRejectedDonation] := by
  exact hospital_list_is_spec_union.2.2.1 1 [completedRejectedDonation]
    completedRejectedDonation (by decide)
    ⟨⟨1, "City Hospital", "no stock", 2⟩, by decide, rfl⟩

/-! ## Claim C3 -/

theorem donationHooks_status (now : Time) (orig : Status) (d : Donation) :
    (donationHooks now orig d).status = d.status := by
  obtain ⟨a, c, h⟩ := donationHooks_shape now orig d
  rw [h]

theorem donationHooks_hospitalId (now : Time) (orig : Status) (d : Donation) :
    (donationHooks now orig d).hospitalId = d.hospitalId := by
  obtain ⟨a, c, h⟩ := donationHooks_shape now orig d
  rw [h]

theorem requestHooks_status (now : Time) (orig : Status) (r : Request) :
    (requestHooks now orig r).status = r.status := by
  obtain ⟨a, c, h⟩ := requestHooks_shape now orig r
  rw [h]

theorem requestHooks_hospitalId (now : Time) (orig : Status) (r : Request) :
    (requestHooks now orig r).hospitalId = r.hospitalId := by
  obtain ⟨a, c, h⟩ := requestHooks_shape now orig r
  rw [h]

/-- The spec invariant on requests: the hospital assignment is populated
exactly when the status is approved or completed. -/
def requestAssignmentInv (r : Request) : Prop :=
  r.hospitalId ≠ none ↔ (r.status = .approved ∨ r.status = .completed)

/-- The fresh document built by POST /requests before saving
(src/routes/requests.js router.post): pending, no hospital assignment. -/
def newRequest (u : AuthUser) (now : Time) : Request :=
  { patientId := u.uid, patientName := u.name, status := .pending,
    hospitalId := none, hospitalName := none, approvedBy := none,
    rejectedByHospitals := [], createdAt := now, updatedAt := now,
    approvedAt := none, completedAt := none }

theorem patchStepRequest_inv (u : AuthUser) (st : Status) (reason : Option String)
    (now : Time) (r : Request) (h : requestAssignmentInv r) :
    requestAssignmentInv (patchStepRequest u st reason now r) := by
  unfold patchStepRequest patchRequest
  by_cases hrole : u.role ∈ [Role.hospital, Role.admin]
  case neg =>
    rw [if_neg hrole]
    exact h
  case pos =>
    rw [if_pos hrole]
    cases st
    case pending =>
      rw [if_neg (by decide)]
      exact h
    case expired =>
      rw [if_neg (by decide)]
      exact h
    case cancelled =>
      rw [if_neg (by decide)]
      exact h
    case approved =>
      rw [if_pos (show Status.approved ∈ [Status.approved, .rejected, .completed] by decide),
        if_pos rfl]
      unfold requestSave
      dsimp only
      rw [if_pos (show Status.approved ∈ requestStatusEnum by decide)]
      unfold requestAssignmentInv
      rw [requestHooks_status, requestHooks_hospitalId]
      simp
    case completed =>
      rw [if_pos (show Status.completed ∈ [Status.approved, .rejected, .completed] by decide),
        if_neg (by decide), if_neg (by decide)]
      unfold requestSave
      dsimp only
      rw [if_pos (show Status.completed ∈ requestStatusEnum by decide)]
      unfold requestAssignmentInv
      rw [requestHooks_status, requestHooks_hospitalId]
      simp
    case rejected =>
      rw [if_pos (show Status.rejected ∈ [Status.approved, .rejected, .completed] by decide),
        if_neg (by decide), if_pos rfl]
      by_cases hany : (r.rejectedByHospitals.any fun x => x.hospitalId == u.uid) = true
      · rw [if_pos hany]
        unfold requestSave
        by_cases henum : r.status ∈ requestStatusEnum
        · rw [if_pos henum, requestHooks_self]
          exact h
        · rw [if_neg henum]
          exact h
      · rw [if_neg hany]
        unfold requestSave
        dsimp only
        by_cases henum : r.status ∈ requestStatusEnum
        · rw [if_pos henum, requestHooks_unmodified _ _ _ (by rfl)]
          exact h
        · rw [if_neg henum]
          exact h

/-- The result of a hospital completing the fresh pending donation: status
completed with no hospital assigned. -/
def completedUnassignedDonation : Donation :=
  { baseDonation with
      status := .completed
      updatedAt := 5
      completedAt := some 5 }

/-- Counterexample for C3: a hospital PATCH with status completed on a
pending donation succeeds and yields a completed donation whose hospitalId
is still unset, so hospitalId is not populated whenever status is
completed. -/
theorem complete_pending_donation_leaves_hospital_unset :
    patchDonation hosp1 ⟨.completed, none, none⟩ 5 baseDonation =
      .ok completedUnassignedDonation ∧
    completedUnassignedDonation.status = .completed ∧
    completedUnassignedDonation.hospitalId = none :=
  ⟨rfl, rfl, rfl⟩

/-- Amended C3: for request entries the equivalence does hold along every
sequence of PATCH operations from a fresh pending request — hospitalId is
populated exactly when status is approved or completed — while for donations
it fails (see the counterexample: completing a pending donation leaves
hospitalId unset). -/
theorem request_assignment_iff_approved_or_completed :
    (∀ (u : AuthUser) (now : Time), requestAssignmentInv (newRequest u now)) ∧
    (∀ (steps : List (AuthUser × Status × Option String × Time)) (r : Request),
        requestAssignmentInv r → requestAssignmentInv (runPatchesRequest steps r)) := by
  constructor
  · intro u now
    unfold requestAssignmentInv newRequest
    simp
  · intro steps
    induction steps with
    | nil => intro r h; exact h
    | cons sp rest ih =>
      intro r h
      have hstep : runPatchesRequest (sp :: rest) r =
          runPatchesRequest rest (patchStepRequest sp.1 sp.2.1 sp.2.2.1 sp.2.2.2 r) := rfl
      rw [hstep]
      exact ih _ (patchStepRequest_inv sp.1 sp.2.1 sp.2.2.1 sp.2.2.2 r h)

/-- Witness for the amended C3: an approve, a reject and a complete applied
to a fresh pending request keep the assignment invariant. -/
theorem request_assignment_iff_approved_or_completed_witness :
    requestAssignmentInv (runPatchesRequest
      [(hosp1, .approved, none, 1), (hosp2, .rejected, some "no beds", 2),
       (adminUser, .completed, none, 3)] baseRequest) := by
  exact request_assignment_iff_approved_or_completed.2
    [(hosp1, .approved, none, 1), (hosp2, .rejected, some "no beds", 2),
     (adminUser, .completed, none, 3)] baseRequest
    (by unfold requestAssignmentInv baseRequest; simp)

/-! ## Claim C4 -/

theorem donationHooks_approvedBy (now : Time) (orig : Status) (d : Donation) :
    (donationHooks now orig d).approvedBy = d.approvedBy := by
  obtain ⟨a, c, h⟩ := donationHooks_shape now orig d
  rw [h]

theorem donationHooks_hospitalName (now : Time) (orig : Status) (d : Donation) :
    (donationHooks now orig d).hospitalName = d.hospitalName := by
  obtain ⟨a, c, h⟩ := donationHooks_shape now orig d
  rw [h]

theorem requestHooks_approvedBy (now : Time) (orig : Status) (r : Request) :
    (requestHooks now orig r).approvedBy = r.approvedBy := by
  obtain ⟨a, c, h⟩ := requestHooks_shape now orig r
  rw [h]

theorem requestHooks_hospitalName (now : Time) (orig : Status) (r : Request) :
    (requestHooks now orig r).hospitalName = r.hospitalName := by
  obtain ⟨a, c, h⟩ := requestHooks_shape now orig r
  rw [h]

theorem donationSave_ok_of_mem (now : Time) (orig : Status) (d : Donation)
    (h : d.status ∈ donationStatusEnum) :
    donationSave now orig d = .ok (donationHooks now orig d) := by
  unfold donationSave
  rw [if_pos h]

theorem requestSave_ok_of_mem (now : Time) (orig : Status) (r : Request)
    (h : r.status ∈ requestStatusEnum) :
    requestSave now orig r = .ok (requestHooks now orig r) := by
  unfold requestSave
  rw [if_pos h]

theorem patchDonation_approve_eq (u : AuthUser) (body : PatchBody) (now : Time)
    (d : Donation) (hrole : u.role = .hospital) (hst : body.status = .approved) :
    patchDonation u body now d =
      .ok (donationHooks now d.status (applyPatientId body
        { d with status := .approved, hospitalId := some u.uid,
                 hospitalName := some u.name, approvedBy := some u.uid })) := by
  unfold patchDonation
  rw [hrole, hst]
  rw [if_pos (by decide), if_pos rfl]
  exact donationSave_ok_of_mem now d.status _
    (by rw [applyPatientId_status]
        exact (by decide : Status.approved ∈ donationStatusEnum))

theorem patchDonation_complete_eq (u : AuthUser) (body : PatchBody) (now : Time)
    (d : Donation) (hrole : u.role = .hospital) (hst : body.status = .completed) :
    patchDonation u body now d =
      .ok (donationHooks now d.status (applyPatientId body
        { d with status := .completed })) := by
  unfold patchDonation
  rw [hrole, hst]
  rw [if_pos (by decide), if_neg (by decide), if_neg (by decide)]
  exact donationSave_ok_of_mem now d.status _
    (by rw [applyPatientId_status]
        exact (by decide : Status.completed ∈ donationStatusEnum))

/-- A donation already completed by hospital 1. -/
def completedDonation : Donation :=
  { baseDonation with
      status := .completed
      hospitalId := some 1
      hospitalName := some "City Hospital"
      approvedBy := some 1
      approvedAt := some 1
      completedAt := some 2 }

/-- A donation document in status cancelled. -/
def cancelledDonation : Donation :=
  { baseDonation with status := .cancelled }

/-- The result of hospital 2 re-approving the completed donation. -/
def reApprovedDonation : Donation :=
  { completedDonation with
      status := .approved
      hospitalId := some 2
      hospitalName := some "General Hospital"
      approvedBy := some 2
      updatedAt := 6 }

/-- The result of hospital 1 approving the cancelled donation. -/
def approvedFromCancelled : Donation :=
  { baseDonation with
      status := .approved
      hospitalId := some 1
      hospitalName := some "City Hospital"
      approvedBy := some 1
      updatedAt := 6
      approvedAt := some 6 }

/-- Counterexample for C4: a completed donation is re-approved by a second
hospital with no error, and a hospital approve on a cancelled donation
succeeds and sets status approved instead of failing. -/
theorem completed_and_cancelled_not_terminal :
    patchDonation hosp2 ⟨.approved, none, none⟩ 6 completedDonation =
      .ok reApprovedDonation ∧
    reApprovedDonation.status = .approved ∧
    patchDonation hosp1 ⟨.approved, none, none⟩ 6 cancelledDonation =
      .ok approvedFromCancelled ∧
    approvedFromCancelled.status = .approved :=
  ⟨rfl, rfl, rfl, rfl⟩

/-- Amended C4: the status-update handler performs no check of the current
status: a hospital approve succeeds on a donation in any current status,
completed and cancelled included, setting status approved and assigning the
caller. -/
theorem approve_succeeds_in_any_status :
    ∀ (u : AuthUser) (body : PatchBody) (now : Time) (d : Donation),
      u.role = .hospital → body.status = .approved →
      ∃ d2, patchDonation u body now d = .ok d2 ∧ d2.status = .approved ∧
        d2.hospitalId = some u.uid ∧ d2.approvedBy = some u.uid := by
  intro u body now d hrole hst
  rw [patchDonation_approve_eq u body now d hrole hst]
  refine ⟨_, rfl, ?_, ?_, ?_⟩
  · rw [donationHooks_status, applyPatientId_status]
  · rw [donationHooks_hospitalId, applyPatientId_hospitalId]
  · rw [donationHooks_approvedBy, applyPatientId_approvedBy]

/-- Witness for the amended C4: hospital 1 approving the cancelled donation
succeeds. -/
theorem approve_succeeds_in_any_status_witness :
    ∃ d2, patchDonation hosp1 ⟨.approved, none, none⟩ 6 cancelledDonation = .ok d2 ∧
      d2.status = .approved ∧ d2.hospitalId = some hosp1.uid ∧
      d2.approvedBy = some hosp1.uid :=
  approve_succeeds_in_any_status hosp1 ⟨.approved, none, none⟩ 6 cancelledDonation
    rfl rfl

/-! ## Claim C5 -/

/-- A pending donation approved by hospital 1. -/
def approvedByH1Donation : Donation :=
  { baseDonation with
      status := .approved
      hospitalId := some 1
      hospitalName := some "City Hospital"
      approvedBy := some 1
      approvedAt := some 1 }

/-- The result of hospital 2 completing the donation assigned to
hospital 1. -/
def completedByH2Donation : Donation :=
  { approvedByH1Donation with
      status := .completed
      updatedAt := 6
      completedAt := some 6 }

/-- Counterexample for C5: hospital 2 is not the assigned hospital of the
donation (hospital 1 is), yet its complete PATCH succeeds and sets status
completed. -/
theorem unassigned_hospital_completes_donation :
    patchDonation hosp2 ⟨.completed, none, none⟩ 6 approvedByH1Donation =
      .ok completedByH2Donation ∧
    completedByH2Donation.status = .completed ∧
    approvedByH1Donation.hospitalId = some 1 ∧
    hosp2.uid = 2 :=
  ⟨rfl, rfl, rfl, rfl⟩

/-- Amended C5: a complete by any hospital succeeds with no check against the
assigned hospital (the donation keeps its previous assignment), and for
donations an admin PATCH is a pass-through that leaves the status unchanged,
so admins cannot complete donations. -/
theorem complete_has_no_assignment_check :
    (∀ (u : AuthUser) (body : PatchBody) (now : Time) (d : Donation),
        u.role = .hospital → body.status = .completed →
        ∃ d2, patchDonation u body now d = .ok d2 ∧ d2.status = .completed ∧
          d2.hospitalId = d.hospitalId) ∧
    (∀ (u : AuthUser) (body : PatchBody) (now : Time) (d : Donation),
        u.role = .admin → body.patientId = none → d.status ∈ donationStatusEnum →
        patchDonation u body now d = .ok { d with updatedAt := now }) := by
  constructor
  · intro u body now d hrole hst
    rw [patchDonation_complete_eq u body now d hrole hst]
    refine ⟨_, rfl, ?_, ?_⟩
    · rw [donationHooks_status, applyPatientId_status]
    · rw [donationHooks_hospitalId, applyPatientId_hospitalId]
  · intro u body now d hrole hpid henum
    have heq : patchDonation u body now d =
        donationSave now d.status (applyPatientId body d) := by
      unfold patchDonation
      rw [hrole]
    rw [heq]
    have hap : applyPatientId body d = d := by
      unfold applyPatientId
      rw [hpid]
    rw [hap]
    exact donationSave_self now d henum

/-- Witness for the amended C5: hospital 2 completes the donation assigned to
hospital 1, and an admin PATCH on the fresh donation changes nothing but
updatedAt. -/
theorem complete_has_no_assignment_check_witness :
    (∃ d2, patchDonation hosp2 ⟨.completed, none, none⟩ 6 approvedByH1Donation =
        .ok d2 ∧ d2.status = .completed ∧
        d2.hospitalId = approvedByH1Donation.hospitalId) ∧
    patchDonation adminUser ⟨.completed, none, none⟩ 7 baseDonation =
      .ok { baseDonation with updatedAt := 7 } :=
  ⟨complete_has_no_assignment_check.1 hosp2 ⟨.completed, none, none⟩ 6
      approvedByH1Donation rfl rfl,
    complete_has_no_assignment_check.2 adminUser ⟨.completed, none, none⟩ 7
      baseDonation rfl rfl (by decide)⟩

/-! ## Claim C6 -/

theorem patchRequest_approve_eq (u : AuthUser) (reason : Option String)
    (now : Time) (r : Request) (hrole : u.role = .hospital ∨ u.role = .admin) :
    patchRequest u .approved reason now r =
      .ok (requestHooks now r.status
        { r with status := .approved, hospitalId := some u.uid,
                 hospitalName := some u.name, approvedBy := some u.uid }) := by
  unfold patchRequest
  have hmem : u.role ∈ [Role.hospital, .admin] := by
    rcases hrole with h | h <;> simp [h]
  rw [if_pos hmem, if_pos (by decide), if_pos rfl]
  exact requestSave_ok_of_mem now r.status _
    (by exact (by decide : Status.approved ∈ requestStatusEnum))

theorem donationHooks_first_approve (now : Time) (orig : Status) (d : Donation)
    (hd : d.status = .approved) (horig : orig ≠ .approved) (ha : d.approvedAt = none) :
    donationHooks now orig d = { d with updatedAt := now, approvedAt := some now } := by
  unfold donationHooks
  dsimp only
  rw [if_pos (show d.status ≠ orig ∧ d.status = Status.approved ∧ d.approvedAt = none from
    ⟨by rw [hd]; exact Ne.symm horig, hd, ha⟩)]
  dsimp only
  rw [if_neg (show ¬(d.status ≠ orig ∧ d.status = Status.completed ∧ d.completedAt = none) from
    fun hcon => by rw [hd] at hcon; exact absurd hcon.2.1 (by decide))]

theorem requestHooks_first_approve (now : Time) (orig : Status) (r : Request)
    (hr : r.status = .approved) (horig : orig ≠ .approved) (ha : r.approvedAt = none) :
    requestHooks now orig r = { r with updatedAt := now, approvedAt := some now } := by
  unfold requestHooks
  dsimp only
  rw [if_pos (show r.status ≠ orig ∧ r.status = Status.approved ∧ r.approvedAt = none from
    ⟨by rw [hr]; exact Ne.symm horig, hr, ha⟩)]
  dsimp only
  rw [if_neg (show ¬(r.status ≠ orig ∧ r.status = Status.completed ∧ r.completedAt = none) from
    fun hcon => by rw [hr] at hcon; exact absurd hcon.2.1 (by decide))]

/-- Counterexample for C6: an admin PATCH with status approved on a pending
donation is a silent pass-through — the donation stays pending with no
hospital assignment and no approvedAt, although the caller has role admin. -/
theorem admin_approve_donation_is_noop :
    patchDonation adminUser ⟨.approved, none, none⟩ 7 baseDonation =
      .ok { baseDonation with updatedAt := 7 } ∧
    ({ baseDonation with updatedAt := 7 } : Donation).status = .pending ∧
    ({ baseDonation with updatedAt := 7 } : Donation).hospitalId = none ∧
    ({ baseDonation with updatedAt := 7 } : Donation).approvedAt = none ∧
    adminUser.role = .admin :=
  ⟨rfl, rfl, rfl, rfl, rfl⟩

/-- Amended C6: on donations the approve branch runs for hospital callers
(an admin PATCH is a pass-through); on requests it runs for hospital and
admin callers.  Approve sets status approved, the hospital assignment and
approvedBy to the caller, and approvedAt to the current time exactly once: a
second approve, by the same or another hospital, reassigns the entry but
retains the original approvedAt. -/
theorem approve_sets_approvedAt_once :
    (∀ (u1 u2 : AuthUser) (t1 t2 : Time) (d : Donation),
        u1.role = .hospital → u2.role = .hospital →
        d.status = .pending → d.approvedAt = none →
        ∃ d1 d2,
          patchDonation u1 ⟨.approved, none, none⟩ t1 d = .ok d1 ∧
          d1.status = .approved ∧ d1.hospitalId = some u1.uid ∧
          d1.hospitalName = some u1.name ∧ d1.approvedBy = some u1.uid ∧
          d1.approvedAt = some t1 ∧
          patchDonation u2 ⟨.approved, none, none⟩ t2 d1 = .ok d2 ∧
          d2.approvedAt = some t1 ∧ d2.hospitalId = some u2.uid) ∧
    (∀ (u1 u2 : AuthUser) (t1 t2 : Time) (r : Request),
        (u1.role = .hospital ∨ u1.role = .admin) →
        (u2.role = .hospital ∨ u2.role = .admin) →
        r.status = .pending → r.approvedAt = none →
        ∃ r1 r2,
          patchRequest u1 .approved none t1 r = .ok r1 ∧
          r1.status = .approved ∧ r1.hospitalId = some u1.uid ∧
          r1.hospitalName = some u1.name ∧ r1.approvedBy = some u1.uid ∧
          r1.approvedAt = some t1 ∧
          patchRequest u2 .approved none t2 r1 = .ok r2 ∧
          r2.approvedAt = some t1 ∧ r2.hospitalId = some u2.uid) := by
  constructor
  · intro u1 u2 t1 t2 d hr1 hr2 hpend happ
    refine ⟨{ d with status := .approved, hospitalId := some u1.uid,
                     hospitalName := some u1.name, approvedBy := some u1.uid,
                     updatedAt := t1, approvedAt := some t1 },
            { d with status := .approved, hospitalId := some u2.uid,
                     hospitalName := some u2.name, approvedBy := some u2.uid,
                     updatedAt := t2, approvedAt := some t1 },
            ?_, rfl, rfl, rfl, rfl, rfl, ?_, rfl, rfl⟩
    · rw [patchDonation_approve_eq u1 _ t1 d hr1 rfl]
      exact congrArg Except.ok
        (donationHooks_first_approve t1 d.status _ rfl (by rw [hpend]; decide) happ)
    · rw [patchDonation_approve_eq u2 _ t2 _ hr2 rfl]
      exact congrArg Except.ok (donationHooks_unmodified t2 _ _ rfl)
  · intro u1 u2 t1 t2 r hr1 hr2 hpend happ
    refine ⟨{ r with status := .approved, hospitalId := some u1.uid,
                     hospitalName := some u1.name, approvedBy := some u1.uid,
                     updatedAt := t1, approvedAt := some t1 },
            { r with status := .approved, hospitalId := some u2.uid,
                     hospitalName := some u2.name, approvedBy := some u2.uid,
                     updatedAt := t2, approvedAt := some t1 },
            ?_, rfl, rfl, rfl, rfl, rfl, ?_, rfl, rfl⟩
    · rw [patchRequest_approve_eq u1 none t1 r hr1]
      exact congrArg Except.ok
        (requestHooks_first_approve t1 r.status _ rfl (by rw [hpend]; decide) happ)
    · rw [patchRequest_approve_eq u2 none t2 _ hr2]
      exact congrArg Except.ok (requestHooks_unmodified t2 _ _ rfl)

/-- Witness for the amended C6: hospital 1 approves the fresh donation at
time 1 and hospital 2 re-approves it at time 2; approvedAt stays 1 while the
assignment moves to hospital 2. -/
theorem approve_sets_approvedAt_once_witness :
    ∃ d1 d2,
      patchDonation hosp1 ⟨.approved, none, none⟩ 1 baseDonation = .ok d1 ∧
      d1.status = .approved ∧ d1.hospitalId = some hosp1.uid ∧
      d1.hospitalName = some hosp1.name ∧ d1.approvedBy = some hosp1.uid ∧
      d1.approvedAt = some 1 ∧
      patchDonation hosp2 ⟨.approved, none, none⟩ 2 d1 = .ok d2 ∧
      d2.approvedAt = some 1 ∧ d2.hospitalId = some hosp2.uid :=
  approve_sets_approvedAt_once.1 hosp1 hosp2 1 2 baseDonation rfl rfl rfl rfl

/-! ## Claim C8 -/

/-- The persistent state touched by POST /requests: the request ledger and
the single Stats document (possibly absent). -/
structure RequestState where
  requests : List Request
  stats : Option Stats
deriving DecidableEq, Repr

/-- A patient caller. -/
def patient1 : AuthUser := ⟨20, .patient, "Pat"⟩

/-- POST /requests (src/routes/requests.js router.post): patient-only gate,
save the new request, then read the Stats singleton — creating a fresh one
when absent — and assign stats.totalRequests = (stats.totalRequests or 0) + 1
before saving.  The statsSchema (src/models/Stats.js) has no totalRequests
field: both the totalRequests field of the constructor call and the
assignment are non-schema paths which mongoose silently drops, so the save
persists no counter change; the pre-save hook refreshes lastUpdated only. -/
def createRequest (u : AuthUser) (now : Time) (st : RequestState) :
    RequestState × Except String Request :=
  if u.role = .patient then
    let r := newRequest u now
    let st1 : RequestState := { st with requests := st.requests ++ [r] }
    let s := st.stats.getD
      { totalUsers := 0, totalDonors := 0, totalHospitals := 0,
        totalPatients := 0, totalDonations := 0, lastUpdated := now }
    ({ st1 with stats := some { s with lastUpdated := now } }, .ok r)
  else (st, .error "Only patients can create requests")

/-- A statistics document with nonzero counters. -/
def stats1 : Stats := ⟨5, 2, 1, 2, 4, 0⟩

/-- Counterexample for C8: a successful request create returns ok and
persists the request, yet the resulting statistics document differs from the
previous one only in lastUpdated — every counter, totalDonations included,
is unchanged, because the totalRequests assignment targets a field the
statsSchema does not have — so no statistics counter is incremented by
one. -/
theorem request_create_increments_no_counter :
    (createRequest patient1 3 ⟨[], some stats1⟩).2 = .ok (newRequest patient1 3) ∧
    newRequest patient1 3 ∈ (createRequest patient1 3 ⟨[], some stats1⟩).1.requests ∧
    (createRequest patient1 3 ⟨[], some stats1⟩).1.stats =
      some { stats1 with lastUpdated := 3 } ∧
    ({ stats1 with lastUpdated := 3 } : Stats).totalDonations = stats1.totalDonations :=
  ⟨rfl, by decide, rfl, rfl⟩

/-- The empty statistics document. -/
def stats0 : Stats := ⟨0, 0, 0, 0, 0, 0⟩

/-- Amended C8: for donations the claim holds — a successful create
increments totalDonations by exactly one, and the create is not atomic
across the ledger and the Stats document: when the Stats read fails (no
Stats document) the call errors although the donation is already persisted.
For requests the increment half fails: statsSchema has no totalRequests
field, so the increment is silently dropped and a successful request create
persists the request while leaving every statistics counter unchanged, only
refreshing lastUpdated. -/
theorem create_stats_increment_donations_only :
    (∀ (u : AuthUser) (now : Time) (st : DonationState),
      u.role = .donor →
      (∀ s, st.stats = some s →
          (createDonation u now st).2 = .ok (newDonation u now) ∧
          (createDonation u now st).1.stats =
            some { s with totalDonations := s.totalDonations + 1, lastUpdated := now } ∧
          newDonation u now ∈ (createDonation u now st).1.donations) ∧
      (st.stats = none →
          (createDonation u now st).2 =
            .error "Cannot read properties of null reading totalDonations" ∧
          newDonation u now ∈ (createDonation u now st).1.donations)) ∧
    (∀ (u : AuthUser) (now : Time) (st : RequestState),
      u.role = .patient →
      (createRequest u now st).2 = .ok (newRequest u now) ∧
      newRequest u now ∈ (createRequest u now st).1.requests ∧
      (∀ s, st.stats = some s →
          (createRequest u now st).1.stats = some { s with lastUpdated := now })) := by
  constructor
  · intro u now st hrole
    unfold createDonation
    rw [if_pos hrole]
    constructor
    · intro s hs
      rw [hs]
      exact ⟨rfl, rfl, by simp⟩
    · intro hs
      rw [hs]
      exact ⟨rfl, by simp⟩
  · intro u now st hrole
    unfold createRequest
    rw [if_pos hrole]
    refine ⟨rfl, by simp, ?_⟩
    intro s hs
    rw [hs]
    rfl

/-- Witness for the amended C8: the donation counter goes from 0 to 1 and
the missing-Stats failure still persists the donation, while a request
create over the same statistics document leaves all counters untouched. -/
theorem create_stats_increment_donations_only_witness :
    (createDonation donor1 3 ⟨[], some stats0⟩).2 = .ok (newDonation donor1 3) ∧
    (createDonation donor1 3 ⟨[], some stats0⟩).1.stats =
      some { stats0 with totalDonations := 1, lastUpdated := 3 } ∧
    (createDonation donor1 3 ⟨[], none⟩).2 =
      .error "Cannot read properties of null reading totalDonations" ∧
    newDonation donor1 3 ∈ (createDonation donor1 3 ⟨[], none⟩).1.donations ∧
    (createRequest patient1 4 ⟨[], some stats0⟩).2 = .ok (newRequest patient1 4) ∧
    (createRequest patient1 4 ⟨[], some stats0⟩).1.stats =
      some { stats0 with lastUpdated := 4 } := by
  have h1 := (create_stats_increment_donations_only.1 donor1 3 ⟨[], some stats0⟩
    rfl).1 stats0 rfl
  have h2 := (create_stats_increment_donations_only.1 donor1 3 ⟨[], none⟩ rfl).2 rfl
  have h3 := create_stats_increment_donations_only.2 patient1 4 ⟨[], some stats0⟩ rfl
  exact ⟨h1.1, h1.2.1, h2.1, h2.2, h3.1, h3.2.2 stats0 rfl⟩

/-! ## Claim C9 -/

/-- Claim C9: a request status update whose target is completed (the branch
for targets that are neither approved nor rejected) overwrites hospitalId,
hospitalName and approvedBy with the calling user, whatever their previous
values — completion by an admin or by a hospital other than the approver
silently reassigns the request. -/
theorem complete_overwrites_request_assignment :
    ∀ (u : AuthUser) (reason : Option String) (now : Time) (r : Request),
      (u.role = .hospital ∨ u.role = .admin) →
      ∃ r2, patchRequest u .completed reason now r = .ok r2 ∧
        r2.status = .completed ∧ r2.hospitalId = some u.uid ∧
        r2.hospitalName = some u.name ∧ r2.approvedBy = some u.uid := by
  intro u reason now r hrole
  have heq : patchRequest u .completed reason now r =
      .ok (requestHooks now r.status
        { r with status := .completed, hospitalId := some u.uid,
                 hospitalName := some u.name, approvedBy := some u.uid }) := by
    unfold patchRequest
    have hmem : u.role ∈ [Role.hospital, .admin] := by
      rcases hrole with h | h <;> simp [h]
    rw [if_pos hmem, if_pos (by decide), if_neg (by decide), if_neg (by decide)]
    exact requestSave_ok_of_mem now r.status _
      (by exact (by decide : Status.completed ∈ requestStatusEnum))
  rw [heq]
  refine ⟨_, rfl, ?_, ?_, ?_, ?_⟩
  · rw [requestHooks_status]
  · rw [requestHooks_hospitalId]
  · rw [requestHooks_hospitalName]
  · rw [requestHooks_approvedBy]

/-- A request approved by hospital 1. -/
def approvedByH1Request : Request :=
  { baseRequest with
      status := .approved
      hospitalId := some 1
      hospitalName := some "City Hospital"
      approvedBy := some 1
      approvedAt := some 1 }

/-- Witness for C9: an admin completing the request approved by hospital 1
reassigns hospitalId, hospitalName and approvedBy to the admin. -/
theorem complete_overwrites_request_assignment_witness :
    ∃ r2, patchRequest adminUser .completed none 5 approvedByH1Request = .ok r2 ∧
      r2.status = .completed ∧ r2.hospitalId = some adminUser.uid ∧
      r2.hospitalName = some adminUser.name ∧ r2.approvedBy = some adminUser.uid :=
  complete_overwrites_request_assignment adminUser none 5 approvedByH1Request
    (Or.inr rfl)

/-! ## Claim C10 -/

/-- The legacy data key under which the raw password is stored for each user
type. -/
def passwordKey (ty : Role) : String :=
  match ty with
  | .patient => "patient-password"
  | .hospital => "hospital-password"
  | .donor => "donor-password"
  | .admin => "admin-password"

/-- Claim C10: a successful registration persists the submitted password in
plaintext under data of the legacy type-specific password key, while the
top-level password field is bcrypt-hashed by the pre-save hook; the
registration response carries the data object verbatim, and a subsequent
login with the same credentials also answers with that data object. -/
theorem register_stores_plaintext_password :
    ∀ (emailFormatOk : String → Bool) (existing : List StoredUser)
      (inp : RegInput) (user : StoredUser) (respData : List (String × String)),
      registerUser emailFormatOk existing inp = .ok (user, respData) →
      user.data.lookup (passwordKey inp.type) = some inp.password ∧
      user.password = .hashed inp.password ∧
      respData = user.data ∧
      (∀ now, loginUser [user] inp.email inp.password inp.type now = .ok user.data) := by
  intro fmt existing inp user respData h
  unfold registerUser at h
  split at h
  · cases h
  split at h
  · cases h
  split at h
  · cases h
  split at h
  · cases h
  split at h
  · cases h
  split at h
  · cases h
  split at h
  · cases h
  split at h
  · cases h
  injection h with h
  rw [Prod.ext_iff] at h
  obtain ⟨hu, hr⟩ := h
  subst hu
  subst hr
  refine ⟨?_, rfl, rfl, ?_⟩
  · cases inp.type <;> simp [saveUser, legacyData, passwordKey, List.lookup]
  · intro now
    unfold loginUser
    simp [List.find?, isLocked, comparePassword, saveUser, bcryptHash]

/-- The registration form of the C10 witness. -/
def regPat : RegInput :=
  ⟨.patient, "Alice", "alice@mail.co", "0123456789", "secretpw1", none, none⟩

/-- The user document the C10 witness registration persists. -/
def regPatUser : StoredUser :=
  { email := "alice@mail.co".toLower, password := .hashed "secretpw1",
    type := .patient, profileName := "Alice".trim,
    data := [("patient-name", "Alice"),
             ("patient-email", "alice@mail.co".toLower),
             ("patient-phone", "0123456789"), ("patient-password", "secretpw1")],
    status := "active", accountLocked := false, lockUntil := none }

/-- Witness for C10: registering Alice persists her raw password under
patient-password with a hashed top-level password, and login returns the
data object containing it. -/
theorem register_stores_plaintext_password_witness :
    registerUser (fun _ => true) [] regPat = .ok (regPatUser, regPatUser.data) ∧
    regPatUser.data.lookup (passwordKey regPat.type) = some regPat.password ∧
    regPatUser.password = .hashed regPat.password ∧
    loginUser [regPatUser] regPat.email regPat.password regPat.type 0 =
      .ok regPatUser.data := by
  have hreg : registerUser (fun _ => true) [] regPat =
      .ok (regPatUser, regPatUser.data) := by rfl
  have h := register_stores_plaintext_password (fun _ => true) [] regPat regPatUser
    regPatUser.data hreg
  exact ⟨hreg, h.1, h.2.1, h.2.2.2 0⟩

end LifeLink
